import Mathlib

/-
Verification of the WebSocket connection supervisor
(src/src/WebSocketStore.tsx).

The TypeScript module is embedded shallowly:
  * pure helpers (`getWebSocketState`, the message codec inside
    `socket.onmessage`, `sendWebSocketMessage`, the history bound
    `slice(-maxMessages)`, the notifier fan-out) become Lean functions;
  * the stateful supervisor created by `useWebSocketConnect` becomes an
    explicit state record (`SupState`) together with a step function over
    an event alphabet (socket events, timer fires, facade calls, effect
    cleanup); a run is a left fold of `step` over an event list.
JavaScript numbers appearing as timestamps and intervals are modelled as
`Nat` (they are non-negative integer milliseconds here), JS strings as
`String`, JS arrays as `List`.
-/

namespace WsStore

/-- A JSON value, the possible result of `JSON.parse` on a textual frame
and the shape of the object literal built by the heartbeat watchdog. -/
inductive Json where
  | jnull : Json
  | jbool (b : Bool) : Json
  | jnum (n : Int) : Json
  | jstr (s : String) : Json
  | jarr (elems : List Json) : Json
  | jobj (fields : List (String × Json)) : Json

/-- A raw inbound frame as delivered by the browser in `event.data`:
either textual (a JS string) or non-textual (Blob or ArrayBuffer,
abstracted by an identifier). -/
inductive Frame where
  | text (s : String) : Frame
  | bin (id : Nat) : Frame

/-- The `MessageData` union `string | object` of the source: a string
payload, a JS object (JSON value), or a non-textual binary payload. -/
inductive MessageData where
  | str (s : String) : MessageData
  | obj (j : Json) : MessageData
  | blob (id : Nat) : MessageData

/-- `WebSocketMessage` of the source: a payload plus the `Date.now()`
timestamp recorded at construction. -/
structure WSMessage where
  message : MessageData
  updatedAt : Nat

/-- The decoding performed at the top of `socket.onmessage` (lines
111-118): if `event.data` is a string, try `JSON.parse`; on success the
parsed value is the payload, on failure (caught, `console.warn`) the
original string is kept verbatim; non-textual data passes through
unchanged.  `JSON.parse` is a host builtin, so it enters the model as a
parameter `parse`. -/
def decode (parse : String → Option Json) : Frame → MessageData
  | .text s =>
      match parse s with
      | some j => .obj j
      | none => .str s
  | .bin id => .blob id

/-- JavaScript `arr.slice(-n)` for a non-negative `n`: since `-0 === 0`,
`n = 0` yields `slice(0)`, the whole array; for `n > 0` the start index
is clamped to `max (arr.length - n) 0`, keeping the last
`min n arr.length` elements. -/
def sliceNeg (n : Nat) (l : List α) : List α :=
  if n = 0 then l else l.drop (l.length - n)

/-- The history update of `socket.onmessage` (lines 124-127):
`[...cur.messages, msg].slice(-maxMessages)` (the
`maxMessages !== undefined` guard is always true, since the destructuring
default makes `maxMessages = 2` when absent). -/
def pushHistory (maxMessages : Nat) (msgs : List WSMessage) (m : WSMessage) : List WSMessage :=
  sliceNeg maxMessages (msgs ++ [m])

/-- `WebSocketState` of the source.  The `name` field is typed `string`
in TS but the default record assigns the JS value `null` to it, so it is
an `Option String` here; the socket handle is abstracted by the identity
of the underlying socket object. -/
structure ConnState where
  name : Option String
  socket : Option Nat
  connected : Bool
  connecting : Bool
  messages : List WSMessage
  storeHistory : Bool

/-- The default record built on a store miss (line 24):
`{ name: null, socket: null, connected: false, connecting: false,
messages: [], storeHistory: false }`. -/
def defaultState : ConnState :=
  { name := none, socket := none, connected := false, connecting := false,
    messages := [], storeHistory := false }

/-- `getWebSocketState` (lines 23-25) over an explicit store (the
module-level `state` record, modelled as an association list keyed by
name): `state[name] || default`.  The expression only reads `state`, so
the function returns the store unchanged alongside the result. -/
def getWebSocketState (st : List (String × ConnState)) (nm : String) :
    ConnState × List (String × ConnState) :=
  (((st.find? (fun p => p.1 == nm)).map Prod.snd).getD defaultState, st)

/-- Observable outcome of `sendWebSocketMessage`: the payload was handed
to `socket.send`, or the call no-opped with the `console.warn`
"not connected" report, or a failure during serialization/transmission
was caught and reported via `console.error`.  The function is total, so
no path raises to the caller. -/
inductive SendOutcome where
  | sent (payload : String) : SendOutcome
  | warnedNotConnected : SendOutcome
  | reportedError : SendOutcome

/-- `sendWebSocketMessage` (lines 177-191).  `JSON.stringify` is a host
builtin and may throw (e.g. circular structures), so it enters as a
parameter returning `Option String`; a transmission failure of
`socket.send` is modelled by the flag `transmitOk`.  Both failures are
caught by the `try/catch` and reported. -/
def sendWebSocketMessage (stringify : MessageData → Option String) (transmitOk : Bool)
    (conn : ConnState) (msg : MessageData) : SendOutcome :=
  if !conn.connected || conn.socket == none then
    .warnedNotConnected
  else
    match msg with
    | .str s => if transmitOk then .sent s else .reportedError
    | m =>
        match stringify m with
        | some p => if transmitOk then .sent p else .reportedError
        | none => .reportedError

/-- The resolved configuration of `useWebSocketConnect` after the
destructuring defaults of lines 76-80 have been applied. -/
structure Config where
  autoReconnect : Bool
  reconnectDelay : Nat
  storeHistory : Bool
  maxMessages : Nat
  heartbeatInterval : Nat

/-- The caller-facing option object of `useWebSocketConnect`: every field
but `url`/`name` is optional. -/
structure ConnectOptions where
  autoReconnect : Option Bool
  reconnectDelay : Option Nat
  storeHistory : Option Bool
  maxMessages : Option Nat
  heartbeatInterval : Option Nat

/-- The destructuring defaults of lines 76-80: `autoReconnect = false`,
`reconnectDelay = 5000`, `storeHistory = false`, `maxMessages = 2`,
`heartbeatInterval = 15000`. -/
def resolveConfig (o : ConnectOptions) : Config :=
  { autoReconnect := o.autoReconnect.getD false,
    reconnectDelay := o.reconnectDelay.getD 5000,
    storeHistory := o.storeHistory.getD false,
    maxMessages := o.maxMessages.getD 2,
    heartbeatInterval := o.heartbeatInterval.getD 15000 }

/-- Whole supervisor state for one connection name: the store entry
(`state[name]`), the latest-message table entry (`latestMessages[name]`),
the closure variables of the `useEffect` body (`socket`,
`reconnectTimeout`), the `lastMessageTime` React state and the pending
heartbeat timer of the second effect, plus instrumentation that records
externally observable actions (sockets constructed, synthetic heartbeat
emissions, payloads handed to `socket.send`). -/
structure SupState where
  conn : ConnState
  latest : Option WSMessage
  sockVar : Option Nat
  sockAlive : Bool
  reconnectPending : Bool
  lastMessageTime : Option Nat
  hbDeadline : Option Nat
  socketsCreated : Nat
  synthCount : Nat
  wireSent : List String

/-- State before the hook's first effect runs for a fresh name: store
miss (default record), no latest message, no socket, no timers. -/
def initState : SupState :=
  { conn := defaultState, latest := none, sockVar := none, sockAlive := false,
    reconnectPending := false, lastMessageTime := none, hbDeadline := none,
    socketsCreated := 0, synthCount := 0, wireSent := [] }

/-- Events driving the supervisor: the single-threaded event loop
delivers facade calls, socket callbacks and timer expiries one at a
time.  Timestamps (`Date.now()` readings) ride on the events that
consult the clock. -/
inductive Event where
  | connectCall : Event
  | sockOpen : Event
  | sockMessage (frame : Frame) (now : Nat) : Event
  | sockClose : Event
  | sockError : Event
  | reconnectFire : Event
  | hbFire (now : Nat) : Event
  | sendCall (msg : MessageData) : Event
  | disconnectCall : Event
  | cleanup : Event

/-- The body of `connect` (lines 97-102): a no-op when the current state
is already connected or connecting; otherwise merge
`{ name, storeHistory, connecting: true }` into the store and construct
a new underlying socket (`new WebSocket(url)`), storing it in the
closure variable `socket`. -/
def connect (cfg : Config) (nm : String) (s : SupState) : SupState :=
  if s.conn.connected || s.conn.connecting then s
  else
    { s with
      conn := { s.conn with name := some nm,
                            storeHistory := cfg.storeHistory,
                            connecting := true },
      sockVar := some s.socketsCreated,
      sockAlive := true,
      socketsCreated := s.socketsCreated + 1 }

/-- `disconnectWebSocket` (lines 171-175): close the store's socket
handle if present (its close event, if any, is delivered later as a
separate `sockClose`), then merge
`{ socket: null, connected: false, connecting: false }`.  The closure
variables of the hook (`reconnectTimeout`, the heartbeat timer) are out
of this function's reach. -/
def disconnectWebSocket (s : SupState) : SupState :=
  { s with conn := { s.conn with socket := none,
                                 connected := false,
                                 connecting := false } }

/-- The synthetic message built by the heartbeat watchdog (lines
161-164): payload `{ info: "end of transfer after <H>ms" }`. -/
def synthMessage (heartbeatInterval : Nat) (now : Nat) : WSMessage :=
  { message := .obj (.jobj [("info",
        .jstr ("end of transfer after " ++ toString heartbeatInterval ++ "ms"))]),
    updatedAt := now }

/-- One step of the supervisor event loop, transcribing the handlers of
`useWebSocketConnect`, `disconnectWebSocket` and `sendWebSocketMessage`.
Socket callbacks are guarded by `sockAlive`: a browser socket delivers
no events before construction or after its close event. -/
def step (cfg : Config) (parse : String → Option Json)
    (stringify : MessageData → Option String) (nm : String)
    (s : SupState) : Event → SupState
  | .connectCall => connect cfg nm s
  | .sockOpen =>
      -- lines 104-107: merge `{ socket, connected: true, connecting: false }`
      if s.sockAlive then
        { s with conn := { s.conn with socket := s.sockVar,
                                       connected := true,
                                       connecting := false } }
      else s
  | .sockMessage frame now =>
      if s.sockAlive then
        -- lines 109-133
        let msg : WSMessage := { message := decode parse frame, updatedAt := now }
        -- `addMessage` (lines 49-52): update the latest-message table, notify
        let s1 := { s with latest := some msg }
        -- line 121: `if (heartbeatInterval) setLastMessageTime(Date.now())`;
        -- the heartbeat effect (158-167) re-runs only when the dependency
        -- `lastMessageTime` actually changes, clearing the old timer and
        -- arming a new one `heartbeatInterval` ms ahead
        let s2 :=
          if cfg.heartbeatInterval ≠ 0 ∧ s1.lastMessageTime ≠ some now then
            { s1 with lastMessageTime := some now,
                      hbDeadline := some (now + cfg.heartbeatInterval) }
          else s1
        -- lines 122-129: append to history and bound it by `slice(-maxMessages)`
        if cfg.storeHistory then
          { s2 with conn := { s2.conn with
              messages := pushHistory cfg.maxMessages s2.conn.messages msg } }
        else s2
      else s
  | .sockClose =>
      if s.sockAlive then
        -- lines 135-140
        let s1 := { s with sockAlive := false,
                           conn := { s.conn with socket := none,
                                                 connected := false,
                                                 connecting := false } }
        if cfg.autoReconnect then { s1 with reconnectPending := true } else s1
      else s
  | .sockError =>
      if s.sockAlive then
        -- lines 142-146: report, merge flags down; `socket.close()` makes the
        -- browser deliver a close event later, as a separate `sockClose`
        { s with conn := { s.conn with connected := false, connecting := false } }
      else s
  | .reconnectFire =>
      -- the `setTimeout(connect, reconnectDelay)` armed at line 138 expires
      if s.reconnectPending then connect cfg nm { s with reconnectPending := false }
      else s
  | .hbFire now =>
      -- lines 160-165: the armed heartbeat timer expires: `addMessage` with
      -- the synthetic payload; `lastMessageTime` is not touched, so the
      -- effect does not re-run and no new timer is armed
      match s.hbDeadline with
      | some _ =>
          { s with latest := some (synthMessage cfg.heartbeatInterval now),
                   hbDeadline := none,
                   synthCount := s.synthCount + 1 }
      | none => s
  | .sendCall msg =>
      -- `sendWebSocketMessage` against the current store entry
      match sendWebSocketMessage stringify true s.conn msg with
      | .sent p => { s with wireSent := s.wireSent ++ [p] }
      | _ => s
  | .disconnectCall => disconnectWebSocket s
  | .cleanup =>
      -- lines 151-155, the effect teardown: close the closure socket (its
      -- close event, if any, arrives later), clear `reconnectTimeout`,
      -- merge the flags down
      { s with reconnectPending := false,
               conn := { s.conn with socket := none,
                                     connected := false,
                                     connecting := false } }

/-- A run of the supervisor: fold `step` over an event list. -/
def runTrace (cfg : Config) (parse : String → Option Json)
    (stringify : MessageData → Option String) (nm : String)
    (s : SupState) (evs : List Event) : SupState :=
  evs.foldl (step cfg parse stringify nm) s

/-- Behaviour of one listener callback when invoked during fan-out:
either it returns normally after unsubscribing the listeners in
`deletes` (by calling unsubscribe handles returned by
`subscribeWebSocket`, each of which runs `ls.delete`), or it throws (and
unsubscribes nobody). -/
inductive LEffect where
  | ok (deletes : List Nat) : LEffect
  | throws : LEffect

/-- The listeners a callback unsubscribes when it runs. -/
def LEffect.dels : LEffect → List Nat
  | .ok ds => ds
  | .throws => []

/-- `notifyListeners` (lines 32-41) walked over the insertion-ordered
entry list of the JS `Set`, carrying the identities deleted so far.
`Set.prototype.forEach` iterates the live set in insertion order: an
entry deleted after iteration begins and before being visited is not
visited (skipped here via the `deleted` accumulator); visiting an entry
applies the deletions its callback performs.  Each visit runs inside
`try/catch`, so a throwing listener is reported via `console.error` and
iteration continues.  The result is the list of listeners actually
invoked, in order. -/
def fanoutFrom (beh : Nat → LEffect) (deleted : List Nat) : List Nat → List Nat
  | [] => []
  | i :: rest =>
      if i ∈ deleted then fanoutFrom beh deleted rest
      else i :: fanoutFrom beh (deleted ++ (beh i).dels) rest

/-- `notifyListeners`: fan-out beginning with nothing deleted. -/
def fanout (beh : Nat → LEffect) (l : List Nat) : List Nat :=
  fanoutFrom beh [] l

/-- Modelled from the spec (sections 4.3 and 5): a fan-out that iterates
over a stable snapshot of the listener set taken when notify begins, so
every listener registered at that moment is invoked. -/
def snapshotFanout (l : List Nat) : List Nat := l

/-- Whether an event is a real inbound socket message. -/
def Event.isMessage : Event → Bool
  | .sockMessage _ _ => true
  | _ => false

/-- Whether an event is a heartbeat timer expiry. -/
def Event.isHbFire : Event → Bool
  | .hbFire _ => true
  | _ => false

/-! Claim theorems. -/

/-- Claim C8: for every inbound textual frame, decoding attempts a JSON
parse; on success the parsed value is the message payload, and on parse
failure the payload is the original string verbatim; decoding is a total
function (never raises for malformed input) and non-textual frames pass
through unchanged as the payload. -/
theorem C8_decode_fallback (parse : String → Option Json) :
    (∀ s j, parse s = some j → decode parse (.text s) = .obj j) ∧
    (∀ s, parse s = none → decode parse (.text s) = .str s) ∧
    (∀ id, decode parse (.bin id) = .blob id) := by
  refine ⟨fun s j h => ?_, fun s h => ?_, fun id => rfl⟩ <;> simp [decode, h]

/-- Witness for C8 at concrete inputs: a parse function that always
fails leaves the raw text "not-json\x7b" verbatim, a parse function
returning a JSON value makes that value the payload, and a binary frame
passes through. -/
theorem C8_decode_fallback_witness :
    decode (fun _ => none) (.text "not-json\x7b") = .str "not-json\x7b" ∧
    decode (fun _ => some (.jnum 1)) (.text "1") = .obj (.jnum 1) ∧
    decode (fun _ => none) (.bin 7) = .blob 7 :=
  ⟨(C8_decode_fallback _).2.1 _ rfl, (C8_decode_fallback _).1 _ _ rfl,
   (C8_decode_fallback _).2.2 7⟩

/-- Claim C10: for a name with no entry in the connection record store,
`getWebSocketState` returns the default record whose `name` field is the
JS value `null` (not the queried name), with `socket` null, `connected`
and `connecting` false, empty `messages`, `storeHistory` false; and the
call leaves the store unchanged, so a subsequent read still finds no
entry for that name. -/
theorem C10_unknown_name_default (st : List (String × ConnState)) (nm : String)
    (h : st.find? (fun p => p.1 == nm) = none) :
    getWebSocketState st nm = (defaultState, st) ∧
    defaultState.name = none ∧ defaultState.name ≠ some nm ∧
    defaultState.socket = none ∧ defaultState.connected = false ∧
    defaultState.connecting = false ∧ defaultState.messages = [] ∧
    defaultState.storeHistory = false ∧
    ((getWebSocketState st nm).2.find? (fun p => p.1 == nm) = none) := by
  refine ⟨?_, rfl, by simp [defaultState], rfl, rfl, rfl, rfl, rfl, ?_⟩ <;>
    simp [getWebSocketState, h]

/-- Witness for C10: the empty store and the name "never-seen". -/
theorem C10_unknown_name_default_witness :
    getWebSocketState [] "never-seen" = (defaultState, []) ∧
    defaultState.name = none :=
  ⟨(C10_unknown_name_default [] "never-seen" rfl).1,
   (C10_unknown_name_default [] "never-seen" rfl).2.1⟩

/-- Claim C3: calling `connect` while the state of the name is already
connected or connecting is a no-op: the whole supervisor state is
unchanged, so no second socket is constructed and no state transition is
performed. -/
theorem C3_idempotent_connect (cfg : Config) (parse : String → Option Json)
    (stringify : MessageData → Option String) (nm : String) (s : SupState)
    (h : s.conn.connected = true ∨ s.conn.connecting = true) :
    step cfg parse stringify nm s .connectCall = s ∧
    (step cfg parse stringify nm s .connectCall).socketsCreated = s.socketsCreated := by
  have hb : (s.conn.connected || s.conn.connecting) = true := by
    rcases h with h | h <;> simp [h]
  constructor <;> simp [step, connect, hb]

/-- Witness for C3: a connected state is untouched by a further connect
call. -/
theorem C3_idempotent_connect_witness :
    step { autoReconnect := false, reconnectDelay := 5000, storeHistory := false,
           maxMessages := 2, heartbeatInterval := 15000 }
      (fun _ => none) (fun _ => none) "a"
      { initState with conn := { defaultState with connected := true } }
      .connectCall
    = { initState with conn := { defaultState with connected := true } } :=
  (C3_idempotent_connect _ _ _ _ _ (Or.inl rfl)).1

/-- Claim C9: `send` serializes non-string payloads to JSON text and
sends string payloads as-is; when the connection is not in the connected
phase it is a no-op that reports a warning and drops the message; and a
failure during serialization (`stringify` throwing) or transmission
(`transmitOk = false`) is caught and reported.  The function is total
and every path yields a `SendOutcome`, so nothing is raised to the
caller. -/
theorem C9_send_error_handling (stringify : MessageData → Option String)
    (conn : ConnState) :
    (∀ tOk msg, conn.connected = false ∨ conn.socket = none →
        sendWebSocketMessage stringify tOk conn msg = .warnedNotConnected) ∧
    (∀ sid, conn.connected = true → conn.socket = some sid →
      (∀ s, sendWebSocketMessage stringify true conn (.str s) = .sent s) ∧
      (∀ j p, stringify (.obj j) = some p →
          sendWebSocketMessage stringify true conn (.obj j) = .sent p) ∧
      (∀ j, stringify (.obj j) = none →
          sendWebSocketMessage stringify true conn (.obj j) = .reportedError) ∧
      (∀ msg, sendWebSocketMessage stringify false conn msg = .reportedError)) := by
  constructor
  · intro tOk msg h
    rcases h with h | h <;> simp [sendWebSocketMessage, h]
  · intro sid hc hs
    refine ⟨fun s => ?_, fun j p hp => ?_, fun j hp => ?_, fun msg => ?_⟩
    · simp [sendWebSocketMessage, hc, hs]
    · simp [sendWebSocketMessage, hc, hs, hp]
    · simp [sendWebSocketMessage, hc, hs, hp]
    · cases msg with
      | str s => simp [sendWebSocketMessage, hc, hs]
      | obj j => cases h : stringify (.obj j) <;>
          simp [sendWebSocketMessage, hc, hs, h]
      | blob id => cases h : stringify (.blob id) <;>
          simp [sendWebSocketMessage, hc, hs, h]

/-- Witness for C9 at concrete inputs: sending on the default (idle)
state drops with a warning; on a connected state a string goes out
as-is, an object goes out serialized, and a failing serializer yields a
reported error. -/
theorem C9_send_error_handling_witness :
    sendWebSocketMessage (fun _ => none) true defaultState (.str "x")
      = .warnedNotConnected ∧
    sendWebSocketMessage (fun _ => some "42") true
      { defaultState with connected := true, socket := some 0 } (.str "hi")
      = .sent "hi" ∧
    sendWebSocketMessage (fun _ => some "42") true
      { defaultState with connected := true, socket := some 0 } (.obj (.jnum 42))
      = .sent "42" ∧
    sendWebSocketMessage (fun _ => none) true
      { defaultState with connected := true, socket := some 0 } (.obj .jnull)
      = .reportedError :=
  ⟨(C9_send_error_handling _ _).1 true _ (Or.inl rfl),
   ((C9_send_error_handling _ _).2 0 rfl rfl).1 "hi",
   ((C9_send_error_handling _ _).2 0 rfl rfl).2.1 _ _ rfl,
   ((C9_send_error_handling _ _).2 0 rfl rfl).2.2.1 _ rfl⟩

/-- Fan-out where every visited listener deletes at most itself leaves
the iteration untouched: all pending listeners not already deleted are
invoked in order. -/
theorem fanoutFrom_self_deletes (beh : Nat → LEffect) (l : List Nat)
    (hself : ∀ i ∈ l, ∀ x ∈ (beh i).dels, x = i) (hnd : l.Nodup)
    (deleted : List Nat) (hdis : ∀ j ∈ l, j ∉ deleted) :
    fanoutFrom beh deleted l = l := by
  induction l generalizing deleted with
  | nil => rfl
  | cons i rest ih =>
      rw [fanoutFrom, if_neg (hdis i (List.mem_cons_self i rest))]
      congr 1
      apply ih
      · exact fun j hj x hx => hself j (List.mem_cons_of_mem _ hj) x hx
      · exact hnd.of_cons
      · intro j hj hcont
        rcases List.mem_append.mp hcont with hjd | hjd
        · exact hdis j (List.mem_cons_of_mem _ hj) hjd
        · have hji : j = i := hself i (List.mem_cons_self i rest) j hjd
          exact (List.Nodup.not_mem (by simpa using hnd) (hji ▸ hj)).elim

/-- Every listener actually invoked by the fan-out was registered when
it began, and invocations respect registration order. -/
theorem fanoutFrom_sublist (beh : Nat → LEffect) (l : List Nat)
    (deleted : List Nat) : (fanoutFrom beh deleted l).Sublist l := by
  induction l generalizing deleted with
  | nil => simp [fanoutFrom]
  | cons i rest ih =>
      rw [fanoutFrom]
      split
      · exact (ih _).cons i
      · exact (ih _).cons₂ i

/-- Claim C7: during notification fan-out every currently-registered
callback is invoked in registration order, and a throwing listener is
isolated: the `try/catch` around each call reports the failure, every
remaining listener is still invoked, and nothing propagates to the
caller of notify (the fan-out is a total function producing the full
invocation list).  Stated for listener sets whose callbacks unsubscribe
nobody — in particular throwing listeners, whose deletion set is
empty. -/
theorem C7_listener_isolation (beh : Nat → LEffect) :
    ∀ l : List Nat, (∀ i ∈ l, (beh i).dels = []) → fanout beh l = l := by
  have key : ∀ l : List Nat, (∀ i ∈ l, (beh i).dels = []) →
      fanoutFrom beh [] l = l := by
    intro l
    induction l with
    | nil => intro _; rfl
    | cons i rest ih =>
        intro h
        rw [fanoutFrom, if_neg (List.not_mem_nil i), h i (List.mem_cons_self i rest)]
        simpa using ih (fun j hj => h j (List.mem_cons_of_mem _ hj))
  exact fun l h => key l h

/-- Witness for C7: two listeners where the first throws; both are
invoked, in order. -/
theorem C7_listener_isolation_witness :
    fanout (fun i => if i = 0 then .throws else .ok []) [0, 1] = [0, 1] :=
  C7_listener_isolation _ [0, 1] (by decide)

/-- Counterexample to claim C6 as stated: listeners 0 and 1 are both
registered at the moment notify is invoked; listener 0 unsubscribes
listener 1 during the fan-out, and listener 1 is not invoked in that
fan-out — `Set.prototype.forEach` iterates the live set, whereas the
snapshot semantics the spec demands would still invoke it. -/
theorem C6_counterexample :
    fanout (fun i => if i = 0 then .ok [1] else .ok []) [0, 1] = [0] ∧
    snapshotFanout [0, 1] = [0, 1] := by
  constructor
  · decide
  · rfl

/-- Claim C6 (amended): fan-out iterates the live listener set, not a
snapshot.  A listener that unsubscribes only itself (JS `Set` entries
are distinct) does not disturb the in-progress fan-out: every callback
registered when notify began is still invoked, in order.  The invoked
listeners always form a subsequence of the registered ones, so the
fan-out is not otherwise corrupted; but unsubscribing a different,
not-yet-visited listener prevents that listener from being invoked in
the current fan-out. -/
theorem C6_live_set_fanout (beh : Nat → LEffect) (l : List Nat)
    (hnd : l.Nodup) :
    ((∀ i ∈ l, ∀ x ∈ (beh i).dels, x = i) → fanout beh l = l) ∧
    (fanout beh l).Sublist l := by
  constructor
  · intro hself
    exact fanoutFrom_self_deletes beh l hself hnd [] (by simp)
  · exact fanoutFrom_sublist beh l []

/-- Witness for C6 (amended): two listeners that each unsubscribe
themselves; both are still invoked, and the invocation list is a
subsequence of the registration list. -/
theorem C6_live_set_fanout_witness :
    fanout (fun i => .ok [i]) [0, 1] = [0, 1] ∧
    (fanout (fun i => .ok [i]) [0, 1]).Sublist [0, 1] :=
  ⟨(C6_live_set_fanout _ _ (by decide)).1 (by intro i _ x hx; simpa [LEffect.dels] using hx),
   (C6_live_set_fanout _ _ (by decide)).2⟩

/-- Length of the history bound: `slice(-n)` keeps the last
`min n l.length` elements when `n ≠ 0`. -/
theorem sliceNeg_length (n : Nat) (hn : n ≠ 0) (l : List α) :
    (sliceNeg n l).length = min n l.length := by
  simp only [sliceNeg, if_neg hn, List.length_drop]
  omega

/-- Rebounding after appending more elements ignores the earlier cut:
the last `n` of (last `n` of `l`, then `ms`) are the last `n` of
`l ++ ms`. -/
theorem sliceNeg_idem_append (n : Nat) (hn : n ≠ 0) (l ms : List α) :
    sliceNeg n (sliceNeg n l ++ ms) = sliceNeg n (l ++ ms) := by
  simp only [sliceNeg, if_neg hn, List.length_append, List.length_drop]
  rw [List.drop_append_eq_append_drop, List.drop_append_eq_append_drop,
      List.drop_drop, List.length_drop]
  congr 1
  · congr 1
    omega
  · congr 1
    omega

/-- Folding the `onmessage` history update over a batch of messages:
starting from a history already within the bound, the result is the
bounded suffix of everything ever appended. -/
theorem foldl_pushHistory (N : Nat) (hN : N ≠ 0) (msgs acc : List WSMessage)
    (hacc : acc.length ≤ N) :
    List.foldl (pushHistory N) acc msgs = sliceNeg N (acc ++ msgs) := by
  induction msgs generalizing acc with
  | nil =>
      have h0 : acc.length - N = 0 := by omega
      simp [sliceNeg, if_neg hN, h0]
  | cons m ms ih =>
      rw [List.foldl_cons]
      have hlen : (pushHistory N acc m).length ≤ N := by
        unfold pushHistory
        rw [sliceNeg_length N hN]
        exact Nat.min_le_left _ _
      rw [ih _ hlen]
      unfold pushHistory
      rw [sliceNeg_idem_append N hN]
      congr 1
      simp

/-- One inbound message with a live socket: the socket stays alive and
the history receives the bounded append exactly when `storeHistory` is
configured. -/
theorem step_sockMessage_fields (cfg : Config) (parse : String → Option Json)
    (stringify : MessageData → Option String) (nm : String) (s : SupState)
    (frame : Frame) (now : Nat) (ha : s.sockAlive = true) :
    (step cfg parse stringify nm s (.sockMessage frame now)).sockAlive = true ∧
    (step cfg parse stringify nm s (.sockMessage frame now)).conn.messages
      = (if cfg.storeHistory then
           pushHistory cfg.maxMessages s.conn.messages
             ⟨decode parse frame, now⟩
         else s.conn.messages) := by
  simp only [step, ha, if_true]
  split
  · split <;> simp
  · split <;> simp

/-- Processing a run of inbound message events with a live socket folds
the bounded history update over the decoded messages and keeps the
socket alive. -/
theorem run_messages_history (cfg : Config) (parse : String → Option Json)
    (stringify : MessageData → Option String) (nm : String)
    (pairs : List (Frame × Nat)) (s : SupState)
    (ha : s.sockAlive = true) (hsh : cfg.storeHistory = true) :
    (runTrace cfg parse stringify nm s
        (pairs.map (fun p => Event.sockMessage p.1 p.2))).conn.messages
      = List.foldl (pushHistory cfg.maxMessages) s.conn.messages
          (pairs.map (fun p =>
            ({ message := decode parse p.1, updatedAt := p.2 } : WSMessage))) ∧
    (runTrace cfg parse stringify nm s
        (pairs.map (fun p => Event.sockMessage p.1 p.2))).sockAlive = true := by
  induction pairs generalizing s with
  | nil => exact ⟨rfl, ha⟩
  | cons p ps ih =>
      have hstep := step_sockMessage_fields cfg parse stringify nm s p.1 p.2 ha
      have hrec := ih (step cfg parse stringify nm s (.sockMessage p.1 p.2)) hstep.1
      simp only [List.map_cons, runTrace, List.foldl_cons] at hrec ⊢
      refine ⟨?_, hrec.2⟩
      rw [hrec.1, hstep.2, if_pos hsh]

/-- After the initial connect call and the socket-open callback the
socket is alive and the history is still empty. -/
theorem connect_open_state (cfg : Config) (parse : String → Option Json)
    (stringify : MessageData → Option String) (nm : String) :
    (runTrace cfg parse stringify nm initState [.connectCall, .sockOpen]).sockAlive
      = true ∧
    (runTrace cfg parse stringify nm initState
        [.connectCall, .sockOpen]).conn.messages = [] := by
  simp [runTrace, step, connect, initState, defaultState]

/-- Claim C2 (amended: `maxMessages = N ≥ 1`): after a connection with
`storeHistory = true` and `maxMessages = N ≥ 1` receives `N + k`
messages (`k > 0`), its stored history has exactly `N` entries, equal to
the most recent `N` messages in order of receipt (oldest first: the
original list with its first `k` entries dropped), and after every
prefix of the message sequence the history length is at most `N`
(oldest entries evicted first).  For `maxMessages = 0` the bound is void
— see the counterexample for the claim as stated. -/
theorem C2_bounded_history (cfg : Config) (parse : String → Option Json)
    (stringify : MessageData → Option String) (nm : String)
    (pairs : List (Frame × Nat)) (N k : Nat)
    (hsh : cfg.storeHistory = true) (hN : cfg.maxMessages = N) (hN1 : N ≠ 0)
    (hlen : pairs.length = N + k) (_hk : k ≠ 0) :
    (runTrace cfg parse stringify nm initState
        (.connectCall :: .sockOpen ::
          pairs.map (fun p => Event.sockMessage p.1 p.2))).conn.messages
      = (pairs.map (fun p =>
          ({ message := decode parse p.1, updatedAt := p.2 } : WSMessage))).drop k ∧
    (runTrace cfg parse stringify nm initState
        (.connectCall :: .sockOpen ::
          pairs.map (fun p => Event.sockMessage p.1 p.2))).conn.messages.length
      = N ∧
    (∀ i, (runTrace cfg parse stringify nm initState
        (.connectCall :: .sockOpen ::
          (pairs.take i).map (fun p => Event.sockMessage p.1 p.2))).conn.messages.length
      ≤ N) := by
  have hco := connect_open_state cfg parse stringify nm
  have key : ∀ ps : List (Frame × Nat),
      (runTrace cfg parse stringify nm initState
          (.connectCall :: .sockOpen ::
            ps.map (fun p => Event.sockMessage p.1 p.2))).conn.messages
        = sliceNeg N (ps.map (fun p =>
            ({ message := decode parse p.1, updatedAt := p.2 } : WSMessage))) := by
    intro ps
    have hsplit :
        runTrace cfg parse stringify nm initState
            (.connectCall :: .sockOpen ::
              ps.map (fun p => Event.sockMessage p.1 p.2))
          = runTrace cfg parse stringify nm
              (runTrace cfg parse stringify nm initState [.connectCall, .sockOpen])
              (ps.map (fun p => Event.sockMessage p.1 p.2)) := by
      simp [runTrace]
    rw [hsplit]
    have hrun := run_messages_history cfg parse stringify nm ps
      (runTrace cfg parse stringify nm initState [.connectCall, .sockOpen])
      hco.1 hsh
    rw [hrun.1, hco.2, foldl_pushHistory cfg.maxMessages (hN ▸ hN1) _ [] (by simp),
        List.nil_append, hN]
  refine ⟨?_, ?_, ?_⟩
  · rw [key pairs]
    unfold sliceNeg
    rw [if_neg hN1]
    congr 1
    simp [hlen]
  · rw [key pairs, sliceNeg_length N hN1]
    simp [hlen]
  · intro i
    rw [key (pairs.take i), sliceNeg_length N hN1]
    exact Nat.min_le_left _ _

/-- Counterexample to claim C2 as stated, at `maxMessages = N = 0` and
`k = 1`: JavaScript `slice(-0)` is `slice(0)`, the whole array, so after
one message the history holds 1 entry although the claim demands exactly
`N = 0` entries and `history.length ≤ maxMessages` throughout. -/
theorem C2_counterexample :
    (runTrace { autoReconnect := false, reconnectDelay := 5000,
                storeHistory := true, maxMessages := 0, heartbeatInterval := 0 }
        (fun _ => none) (fun _ => none) "n" initState
        [.connectCall, .sockOpen,
         .sockMessage (.text "a") 1]).conn.messages.length = 1 := by
  rfl

/-- Witness for C2 (amended) at `N = 2`, `k = 1`: three messages leave
the last two, oldest first, and no prefix ever exceeds two entries. -/
theorem C2_bounded_history_witness :
    (runTrace { autoReconnect := false, reconnectDelay := 5000,
                storeHistory := true, maxMessages := 2, heartbeatInterval := 0 }
        (fun _ => none) (fun _ => none) "n" initState
        [.connectCall, .sockOpen, .sockMessage (.text "a") 1,
         .sockMessage (.text "b") 2, .sockMessage (.text "c") 3]).conn.messages
      = [⟨.str "b", 2⟩, ⟨.str "c", 3⟩] := by
  have h := C2_bounded_history
    { autoReconnect := false, reconnectDelay := 5000, storeHistory := true,
      maxMessages := 2, heartbeatInterval := 0 }
    (fun _ => none) (fun _ => none) "n"
    [(.text "a", 1), (.text "b", 2), (.text "c", 3)] 2 1
    rfl rfl (by decide) rfl (by decide)
  simpa [decode] using h.1

/-- Events that are neither inbound messages nor heartbeat expiries
leave the heartbeat deadline and the count of synthetic emissions
untouched. -/
theorem step_hb_untouched (cfg : Config) (parse : String → Option Json)
    (stringify : MessageData → Option String) (nm : String) (s : SupState)
    (ev : Event) (hm : ev.isMessage = false) (hf : ev.isHbFire = false) :
    (step cfg parse stringify nm s ev).hbDeadline = s.hbDeadline ∧
    (step cfg parse stringify nm s ev).synthCount = s.synthCount := by
  cases ev with
  | connectCall => simp only [step, connect]; split <;> simp
  | sockOpen => simp only [step]; split <;> simp
  | sockMessage f now => simp [Event.isMessage] at hm
  | sockClose => simp only [step]; split <;> (try split) <;> simp
  | sockError => simp only [step]; split <;> simp
  | reconnectFire => simp only [step, connect]; split <;> (try split) <;> simp
  | hbFire now => simp [Event.isHbFire] at hf
  | sendCall m => simp only [step]; split <;> simp
  | disconnectCall => simp [step, disconnectWebSocket]
  | cleanup => simp [step]

/-- An armed heartbeat timer expiring: the synthetic end-of-transfer
message replaces the latest message, the timer is disarmed (and not
re-armed, since `lastMessageTime` is untouched), and nothing else
changes. -/
theorem step_hbFire_armed (cfg : Config) (parse : String → Option Json)
    (stringify : MessageData → Option String) (nm : String) (s : SupState)
    (now d : Nat) (hd : s.hbDeadline = some d) :
    step cfg parse stringify nm s (.hbFire now)
      = { s with latest := some (synthMessage cfg.heartbeatInterval now),
                 hbDeadline := none, synthCount := s.synthCount + 1 } := by
  simp only [step, hd]

/-- A heartbeat expiry with no armed timer is a no-op. -/
theorem step_hbFire_unarmed (cfg : Config) (parse : String → Option Json)
    (stringify : MessageData → Option String) (nm : String) (s : SupState)
    (now : Nat) (hd : s.hbDeadline = none) :
    step cfg parse stringify nm s (.hbFire now) = s := by
  simp only [step, hd]

/-- An inbound message never emits a synthetic heartbeat itself; with
`heartbeatInterval = 0` it leaves the watchdog disarmed, and with a
non-zero interval, a live socket and a fresh timestamp it re-arms the
deadline to the arrival time plus the interval. -/
theorem step_sockMessage_hb (cfg : Config) (parse : String → Option Json)
    (stringify : MessageData → Option String) (nm : String) (s : SupState)
    (f : Frame) (now : Nat) :
    (step cfg parse stringify nm s (.sockMessage f now)).synthCount
        = s.synthCount ∧
    (cfg.heartbeatInterval = 0 →
      (step cfg parse stringify nm s (.sockMessage f now)).hbDeadline
        = s.hbDeadline) ∧
    (s.sockAlive = true → cfg.heartbeatInterval ≠ 0 →
      s.lastMessageTime ≠ some now →
      (step cfg parse stringify nm s (.sockMessage f now)).hbDeadline
        = some (now + cfg.heartbeatInterval)) := by
  refine ⟨?_, fun h0 => ?_, fun ha hH ht => ?_⟩
  · simp only [step]
    split
    · split <;> split <;> simp
    · rfl
  · simp only [step]
    split
    · have hcond : ¬(cfg.heartbeatInterval ≠ 0 ∧ s.lastMessageTime ≠ some now) := by
        simp [h0]
      simp only [if_neg hcond]
      split <;> simp
    · rfl
  · simp only [step, ha, if_true]
    have hcond : cfg.heartbeatInterval ≠ 0 ∧ s.lastMessageTime ≠ some now := ⟨hH, ht⟩
    simp only [if_pos hcond]
    split <;> simp

/-- Over any run containing no inbound message events: if the watchdog
is disarmed nothing synthetic is ever emitted (and it stays disarmed);
if it is armed, exactly one synthetic message is emitted — by the first
heartbeat expiry in the run, if there is one — and never a second. -/
theorem quiet_run_synth (cfg : Config) (parse : String → Option Json)
    (stringify : MessageData → Option String) (nm : String) (evs : List Event) :
    ∀ s : SupState, (∀ ev ∈ evs, ev.isMessage = false) →
    ((s.hbDeadline = none →
       (runTrace cfg parse stringify nm s evs).synthCount = s.synthCount) ∧
     (s.hbDeadline.isSome = true →
       (runTrace cfg parse stringify nm s evs).synthCount
         = s.synthCount + (if evs.any Event.isHbFire then 1 else 0))) := by
  induction evs with
  | nil => intro s _; simp [runTrace]
  | cons ev rest ih =>
      intro s hq
      have hqr : ∀ e ∈ rest, e.isMessage = false :=
        fun e he => hq e (List.mem_cons_of_mem _ he)
      have hqe : ev.isMessage = false := hq ev (List.mem_cons_self _ _)
      have hrun : runTrace cfg parse stringify nm s (ev :: rest)
          = runTrace cfg parse stringify nm
              (step cfg parse stringify nm s ev) rest := by
        simp [runTrace]
      by_cases hf : ev.isHbFire = true
      · cases ev with
        | hbFire now =>
            constructor
            · intro hnone
              rw [hrun, step_hbFire_unarmed cfg parse stringify nm s now hnone]
              exact (ih s hqr).1 hnone
            · intro hsome
              obtain ⟨d, hd⟩ := Option.isSome_iff_exists.mp hsome
              rw [hrun, step_hbFire_armed cfg parse stringify nm s now d hd]
              have h2 := (ih { s with
                  latest := some (synthMessage cfg.heartbeatInterval now),
                  hbDeadline := none, synthCount := s.synthCount + 1 } hqr).1 rfl
              rw [h2]
              simp [List.any_cons, Event.isHbFire]
        | connectCall => simp [Event.isHbFire] at hf
        | sockOpen => simp [Event.isHbFire] at hf
        | sockMessage f now => simp [Event.isHbFire] at hf
        | sockClose => simp [Event.isHbFire] at hf
        | sockError => simp [Event.isHbFire] at hf
        | reconnectFire => simp [Event.isHbFire] at hf
        | sendCall m => simp [Event.isHbFire] at hf
        | disconnectCall => simp [Event.isHbFire] at hf
        | cleanup => simp [Event.isHbFire] at hf
      · have h1 := step_hb_untouched cfg parse stringify nm s ev hqe
          (by simpa using hf)
        have hany : (ev :: rest).any Event.isHbFire = rest.any Event.isHbFire := by
          simp only [List.any_cons]
          rw [show ev.isHbFire = false by simpa using hf]
          simp
        constructor
        · intro hnone
          rw [hrun]
          rw [(ih _ hqr).1 (h1.1.trans hnone), h1.2]
        · intro hsome
          rw [hrun]
          have hsome2 : (step cfg parse stringify nm s ev).hbDeadline.isSome
              = true := by rw [h1.1]; exact hsome
          rw [(ih _ hqr).2 hsome2, h1.2, hany]

/-- With `heartbeatInterval = 0` a disarmed watchdog stays disarmed over
every run, and no synthetic message is ever emitted. -/
theorem run_synth_zero (cfg : Config) (parse : String → Option Json)
    (stringify : MessageData → Option String) (nm : String)
    (h0 : cfg.heartbeatInterval = 0) (evs : List Event) :
    ∀ s : SupState, s.hbDeadline = none →
      (runTrace cfg parse stringify nm s evs).synthCount = s.synthCount ∧
      (runTrace cfg parse stringify nm s evs).hbDeadline = none := by
  induction evs with
  | nil => intro s hs; exact ⟨rfl, hs⟩
  | cons ev rest ih =>
      intro s hs
      have hrun : runTrace cfg parse stringify nm s (ev :: rest)
          = runTrace cfg parse stringify nm
              (step cfg parse stringify nm s ev) rest := by
        simp [runTrace]
      rw [hrun]
      by_cases hm : ev.isMessage = true
      · cases ev with
        | sockMessage f now =>
            have hmsg := step_sockMessage_hb cfg parse stringify nm s f now
            have hrec := ih (step cfg parse stringify nm s (.sockMessage f now))
              ((hmsg.2.1 h0).trans hs)
            exact ⟨hrec.1.trans hmsg.1, hrec.2⟩
        | connectCall => simp [Event.isMessage] at hm
        | sockOpen => simp [Event.isMessage] at hm
        | sockClose => simp [Event.isMessage] at hm
        | sockError => simp [Event.isMessage] at hm
        | reconnectFire => simp [Event.isMessage] at hm
        | hbFire now => simp [Event.isMessage] at hm
        | sendCall m => simp [Event.isMessage] at hm
        | disconnectCall => simp [Event.isMessage] at hm
        | cleanup => simp [Event.isMessage] at hm
      · by_cases hf : ev.isHbFire = true
        · cases ev with
          | hbFire now =>
              rw [step_hbFire_unarmed cfg parse stringify nm s now hs]
              exact ih s hs
          | connectCall => simp [Event.isHbFire] at hf
          | sockOpen => simp [Event.isHbFire] at hf
          | sockMessage f now => simp [Event.isMessage] at hm
          | sockClose => simp [Event.isHbFire] at hf
          | sockError => simp [Event.isHbFire] at hf
          | reconnectFire => simp [Event.isHbFire] at hf
          | sendCall m => simp [Event.isHbFire] at hf
          | disconnectCall => simp [Event.isHbFire] at hf
          | cleanup => simp [Event.isHbFire] at hf
        · have h1 := step_hb_untouched cfg parse stringify nm s ev
            (by simpa using hm) (by simpa using hf)
          have hrec := ih (step cfg parse stringify nm s ev) (h1.1.trans hs)
          exact ⟨hrec.1.trans h1.2, hrec.2⟩

/-- Claim C5 (amended: "zero or unset" weakened to "zero" — an unset
`heartbeatInterval` defaults to 15000, which arms the watchdog; see the
counterexample): no synthetic heartbeat message is emitted on any run
from the initial state containing no real inbound message (the watchdog
is not armed at connection open); each real inbound message on a live
socket with a non-zero interval and a fresh timestamp cancels and
re-arms the watchdog to expire `heartbeatInterval` ms after its arrival
and emits nothing itself; once the watchdog is armed, a run without
further real messages emits exactly one synthetic message — via the
first heartbeat expiry, if any — and never a second; and with
`heartbeatInterval = 0` no synthetic message is ever emitted. -/
theorem C5_heartbeat_arming (cfg : Config) (parse : String → Option Json)
    (stringify : MessageData → Option String) (nm : String) :
    (∀ evs : List Event, (∀ ev ∈ evs, ev.isMessage = false) →
       (runTrace cfg parse stringify nm initState evs).synthCount = 0) ∧
    (∀ (s : SupState) (f : Frame) (now : Nat),
       s.sockAlive = true → cfg.heartbeatInterval ≠ 0 →
       s.lastMessageTime ≠ some now →
       (step cfg parse stringify nm s (.sockMessage f now)).hbDeadline
         = some (now + cfg.heartbeatInterval) ∧
       (step cfg parse stringify nm s (.sockMessage f now)).synthCount
         = s.synthCount) ∧
    (∀ s : SupState, s.hbDeadline.isSome = true →
       ∀ evs : List Event, (∀ ev ∈ evs, ev.isMessage = false) →
       (runTrace cfg parse stringify nm s evs).synthCount
         = s.synthCount + (if evs.any Event.isHbFire then 1 else 0)) ∧
    (cfg.heartbeatInterval = 0 →
       ∀ evs : List Event,
       (runTrace cfg parse stringify nm initState evs).synthCount = 0) := by
  refine ⟨?_, ?_, ?_, ?_⟩
  · intro evs hq
    exact (quiet_run_synth cfg parse stringify nm evs initState hq).1 rfl
  · intro s f now ha hH ht
    have h := step_sockMessage_hb cfg parse stringify nm s f now
    exact ⟨h.2.2 ha hH ht, h.1⟩
  · intro s hsome evs hq
    exact (quiet_run_synth cfg parse stringify nm evs s hq).2 hsome
  · intro h0 evs
    exact (run_synth_zero cfg parse stringify nm h0 evs initState rfl).1

/-- Counterexample to claim C5 as stated: an unset `heartbeatInterval`
does not disable the watchdog — the destructuring default makes it
15000, so after one real message and 15000 quiet milliseconds a
synthetic end-of-transfer message is emitted, although the claim says
none ever is when the interval is unset. -/
theorem C5_counterexample :
    (resolveConfig { autoReconnect := none, reconnectDelay := none,
                     storeHistory := none, maxMessages := none,
                     heartbeatInterval := none }).heartbeatInterval = 15000 ∧
    (runTrace (resolveConfig { autoReconnect := none, reconnectDelay := none,
                               storeHistory := none, maxMessages := none,
                               heartbeatInterval := none })
        (fun _ => none) (fun _ => none) "n" initState
        [.connectCall, .sockOpen, .sockMessage (.text "x") 0,
         .hbFire 15000]).synthCount = 1 :=
  ⟨rfl, rfl⟩

/-- Witness for C5 (amended) at concrete inputs: a message-free run
emits nothing; a message at time 5 arms the deadline to 15005; an armed
watchdog emits exactly once across two expiries; a zero interval emits
nothing. -/
theorem C5_heartbeat_arming_witness :
    (runTrace { autoReconnect := false, reconnectDelay := 5000,
                storeHistory := false, maxMessages := 2,
                heartbeatInterval := 15000 }
        (fun _ => none) (fun _ => none) "n" initState
        [.connectCall, .sockOpen, .hbFire 15000]).synthCount = 0 ∧
    (step { autoReconnect := false, reconnectDelay := 5000,
            storeHistory := false, maxMessages := 2,
            heartbeatInterval := 15000 }
        (fun _ => none) (fun _ => none) "n"
        { initState with sockAlive := true } (.sockMessage (.text "x") 5)).hbDeadline
      = some 15005 ∧
    (runTrace { autoReconnect := false, reconnectDelay := 5000,
                storeHistory := false, maxMessages := 2,
                heartbeatInterval := 15000 }
        (fun _ => none) (fun _ => none) "n"
        { initState with hbDeadline := some 9 }
        [.hbFire 9, .hbFire 20]).synthCount = 1 ∧
    (runTrace { autoReconnect := false, reconnectDelay := 5000,
                storeHistory := false, maxMessages := 2,
                heartbeatInterval := 0 }
        (fun _ => none) (fun _ => none) "n" initState
        [.connectCall, .hbFire 3]).synthCount = 0 := by
  refine ⟨?_, ?_, ?_, ?_⟩
  · exact (C5_heartbeat_arming _ _ _ _).1 _ (by decide)
  · exact ((C5_heartbeat_arming _ _ _ _).2.1 _ (.text "x") 5 rfl (by decide)
      (by decide)).1
  · simpa [Event.isHbFire] using (C5_heartbeat_arming
      { autoReconnect := false, reconnectDelay := 5000, storeHistory := false,
        maxMessages := 2, heartbeatInterval := 15000 }
      (fun _ => none) (fun _ => none) "n").2.2.1
      { initState with hbDeadline := some 9 } rfl [.hbFire 9, .hbFire 20]
      (by decide)
  · exact (C5_heartbeat_arming _ _ _ _).2.2.2 rfl _

/-- Counterexample to claim C4 as stated: with `storeHistory = true` the
watchdog expiry updates the latest-message table with the synthetic
end-of-transfer message, but the message is not appended to the
history — `addMessage` bypasses the `socket.onmessage` history path, so
the history still holds only the real message. -/
theorem C4_counterexample :
    (runTrace { autoReconnect := false, reconnectDelay := 5000,
                storeHistory := true, maxMessages := 5, heartbeatInterval := 10 }
        (fun _ => none) (fun _ => none) "n" initState
        [.connectCall, .sockOpen, .sockMessage (.text "hi") 100,
         .hbFire 110]).conn.storeHistory = true ∧
    (runTrace { autoReconnect := false, reconnectDelay := 5000,
                storeHistory := true, maxMessages := 5, heartbeatInterval := 10 }
        (fun _ => none) (fun _ => none) "n" initState
        [.connectCall, .sockOpen, .sockMessage (.text "hi") 100,
         .hbFire 110]).latest = some (synthMessage 10 110) ∧
    synthMessage 10 110 ∉
      (runTrace { autoReconnect := false, reconnectDelay := 5000,
                  storeHistory := true, maxMessages := 5, heartbeatInterval := 10 }
          (fun _ => none) (fun _ => none) "n" initState
          [.connectCall, .sockOpen, .sockMessage (.text "hi") 100,
           .hbFire 110]).conn.messages := by
  refine ⟨rfl, rfl, ?_⟩
  intro hmem
  rw [show (runTrace { autoReconnect := false, reconnectDelay := 5000,
                       storeHistory := true, maxMessages := 5,
                       heartbeatInterval := 10 }
        (fun _ => none) (fun _ => none) "n" initState
        [.connectCall, .sockOpen, .sockMessage (.text "hi") 100,
         .hbFire 110]).conn.messages
      = [({ message := .str "hi", updatedAt := 100 } : WSMessage)] from rfl] at hmem
  simp [synthMessage] at hmem

/-- Claim C4 (amended): when the armed heartbeat watchdog expires, the
supervisor synthesizes a message whose payload carries the "end of
transfer" indicator with the configured interval and delivers it through
`addMessage` alone: it becomes the latest message (with listener
notification) and nothing is handed to `socket.send` — it is never sent
over the wire; but it is NOT appended to the history, even when
`storeHistory` is true: the stored connection record, including
`messages`, is untouched. -/
theorem C4_heartbeat_delivery (cfg : Config) (parse : String → Option Json)
    (stringify : MessageData → Option String) (nm : String)
    (s : SupState) (now d : Nat) (hd : s.hbDeadline = some d) :
    (step cfg parse stringify nm s (.hbFire now)).latest
      = some (synthMessage cfg.heartbeatInterval now) ∧
    (step cfg parse stringify nm s (.hbFire now)).conn = s.conn ∧
    (step cfg parse stringify nm s (.hbFire now)).wireSent = s.wireSent := by
  rw [step_hbFire_armed cfg parse stringify nm s now d hd]
  exact ⟨rfl, rfl, rfl⟩

/-- Witness for C4 (amended): a concrete armed state; the expiry yields
the synthetic latest message, an unchanged connection record and an
unchanged wire log. -/
theorem C4_heartbeat_delivery_witness :
    (step { autoReconnect := false, reconnectDelay := 5000,
            storeHistory := true, maxMessages := 5, heartbeatInterval := 10 }
        (fun _ => none) (fun _ => none) "n"
        { initState with hbDeadline := some 110 } (.hbFire 110)).latest
      = some (synthMessage 10 110) ∧
    (step { autoReconnect := false, reconnectDelay := 5000,
            storeHistory := true, maxMessages := 5, heartbeatInterval := 10 }
        (fun _ => none) (fun _ => none) "n"
        { initState with hbDeadline := some 110 } (.hbFire 110)).conn
      = defaultState ∧
    (step { autoReconnect := false, reconnectDelay := 5000,
            storeHistory := true, maxMessages := 5, heartbeatInterval := 10 }
        (fun _ => none) (fun _ => none) "n"
        { initState with hbDeadline := some 110 } (.hbFire 110)).wireSent
      = [] :=
  C4_heartbeat_delivery _ _ _ _ _ 110 110 rfl

/-- Counterexample to claim C1 as stated: with `autoReconnect = true`, a
close event schedules a reconnect; `disconnectWebSocket` is called
before the timer fires, yet the pending timer survives (it lives in the
hook's closure, out of the facade's reach), then fires: the connection
re-enters the connecting phase with a second underlying socket although
no new connect call was made. -/
theorem C1_counterexample :
    (runTrace { autoReconnect := true, reconnectDelay := 5000,
                storeHistory := false, maxMessages := 2, heartbeatInterval := 0 }
        (fun _ => none) (fun _ => none) "n" initState
        [.connectCall, .sockOpen, .sockClose,
         .disconnectCall]).reconnectPending = true ∧
    (runTrace { autoReconnect := true, reconnectDelay := 5000,
                storeHistory := false, maxMessages := 2, heartbeatInterval := 0 }
        (fun _ => none) (fun _ => none) "n" initState
        [.connectCall, .sockOpen, .sockClose, .disconnectCall,
         .reconnectFire]).conn.connecting = true ∧
    (runTrace { autoReconnect := true, reconnectDelay := 5000,
                storeHistory := false, maxMessages := 2, heartbeatInterval := 0 }
        (fun _ => none) (fun _ => none) "n" initState
        [.connectCall, .sockOpen, .sockClose, .disconnectCall,
         .reconnectFire]).socketsCreated = 2 :=
  ⟨rfl, rfl, rfl⟩

/-- Claim C1 (amended): `disconnectWebSocket` closes the store's socket
handle and resets the phase flags, but it does not cancel a pending
reconnect timer or heartbeat timer — those live in the hook's closure,
unreachable from the facade — so with `autoReconnect` enabled a
reconnect scheduled by a close event still fires after a disconnect call
and re-enters the connecting phase with a new underlying socket.  Only
the hook's effect cleanup cancels the pending reconnect timer. -/
theorem C1_disconnect_vs_reconnect (cfg : Config) (parse : String → Option Json)
    (stringify : MessageData → Option String) (nm : String) (s : SupState) :
    ((step cfg parse stringify nm s .disconnectCall).reconnectPending
        = s.reconnectPending ∧
     (step cfg parse stringify nm s .disconnectCall).hbDeadline
        = s.hbDeadline) ∧
    (step cfg parse stringify nm s .cleanup).reconnectPending = false ∧
    (s.reconnectPending = true → s.conn.connected = false →
     s.conn.connecting = false →
      (step cfg parse stringify nm s .reconnectFire).conn.connecting = true ∧
      (step cfg parse stringify nm s .reconnectFire).socketsCreated
        = s.socketsCreated + 1) := by
  refine ⟨⟨rfl, rfl⟩, rfl, fun hp hc1 hc2 => ?_⟩
  have hb : (s.conn.connected || s.conn.connecting) = false := by
    simp [hc1, hc2]
  simp [step, connect, hp, hb]

/-- Witness for C1 (amended) at a concrete state with a pending
reconnect and an idle connection: the timer fire re-enters connecting
and constructs a second socket. -/
theorem C1_disconnect_vs_reconnect_witness :
    (step { autoReconnect := true, reconnectDelay := 5000,
            storeHistory := false, maxMessages := 2, heartbeatInterval := 0 }
        (fun _ => none) (fun _ => none) "n"
        { initState with reconnectPending := true, socketsCreated := 1 }
        .reconnectFire).conn.connecting = true ∧
    (step { autoReconnect := true, reconnectDelay := 5000,
            storeHistory := false, maxMessages := 2, heartbeatInterval := 0 }
        (fun _ => none) (fun _ => none) "n"
        { initState with reconnectPending := true, socketsCreated := 1 }
        .reconnectFire).socketsCreated = 2 :=
  (C1_disconnect_vs_reconnect _ _ _ _ _).2.2 rfl rfl rfl

end WsStore
